import Mathlib

/-!
Verification of `homework.py`: a status-polling Telegram notification bot.

The Python module is shallowly embedded below. Python structured data
(the parsed JSON of the API answer) becomes the inductive type `PyVal`;
Python exceptions become the inductive type `PyErr` carried in `Except`;
the side effects of the program (log lines, outbound Telegram sends,
outbound HTTP requests, sleeps) become explicit `Event` lists; the three
pieces of mutable state of the process (the seen-message cache, the
error-dedup cache, the poll cursor) are passed explicitly. Network and
messaging outcomes are oracle inputs (`FetchOutcome`, `SendResult`).
-/

namespace HomeworkBot

/-- Python structured data as returned by `response.json()`. -/
inductive PyVal where
  | str (s : String)
  | int (n : Int)
  | list (xs : List PyVal)
  | dict (kvs : List (String × PyVal))
  | pyNone
  deriving Repr

mutual

/-- Structural equality on `PyVal`, modelling Python `==` on the JSON-like
values the program handles. -/
def PyVal.beq : PyVal → PyVal → Bool
  | .str a, .str b => a == b
  | .int a, .int b => a == b
  | .pyNone, .pyNone => true
  | .list xs, .list ys => PyVal.beqList xs ys
  | .dict xs, .dict ys => PyVal.beqDict xs ys
  | _, _ => false

def PyVal.beqList : List PyVal → List PyVal → Bool
  | [], [] => true
  | x :: xs, y :: ys => PyVal.beq x y && PyVal.beqList xs ys
  | _, _ => false

def PyVal.beqDict : List (String × PyVal) → List (String × PyVal) → Bool
  | [], [] => true
  | (k₁, v₁) :: xs, (k₂, v₂) :: ys => k₁ == k₂ && PyVal.beq v₁ v₂ && PyVal.beqDict xs ys
  | _, _ => false

end

instance : BEq PyVal := ⟨PyVal.beq⟩

/-- Python exceptions raised by the embedded functions.
`apiAnswerError` embeds the custom `APIAnswerError` from `exceptions.py`. -/
inductive PyErr where
  | typeError (msg : String)
  | keyError (msg : String)
  | indexError (msg : String)
  | apiAnswerError (msg : String)
  | jsonDecodeError (msg : String)
  deriving Repr, DecidableEq

/-- Python `str(exception)`: for `KeyError` the single argument is shown
through `repr`, so it keeps its quotes; the other kinds show the bare
message. -/
def PyErr.toStr : PyErr → String
  | .typeError m => m
  | .keyError m => "\x27" ++ m ++ "\x27"
  | .indexError m => m
  | .apiAnswerError m => m
  | .jsonDecodeError m => m

/-- Key membership test on a Python dict (`k in d`). -/
def dictHasKey : List (String × PyVal) → String → Bool
  | [], _ => false
  | (k₁, _) :: rest, k => k₁ == k || dictHasKey rest k

/-- Python dict subscript `d[k]` on an association list (first binding
wins; a Python dict holds one binding per key, so the choice is moot on
faithfully modelled inputs). -/
def dictGet : List (String × PyVal) → String → Option PyVal
  | [], _ => none
  | (k₁, v) :: rest, k => if k₁ == k then some v else dictGet rest k

/-- Python `k in v` for a string `k` and an arbitrary value `v`:
key membership for dicts, element membership for lists, substring test
for strings, `TypeError` for non-containers. -/
def pyIn (k : String) (v : PyVal) : Except PyErr Bool :=
  match v with
  | .dict kvs => .ok (dictHasKey kvs k)
  | .list xs => .ok (xs.contains (.str k))
  | .str s => .ok ((s.splitOn k).length > 1)
  | _ => .error (.typeError "argument of type is not iterable")

/-- Python subscript `v[k]` with a string key: only dicts support it;
a missing key raises `KeyError`. -/
def pySubscript (v : PyVal) (k : String) : Except PyErr PyVal :=
  match v with
  | .dict kvs =>
    match dictGet kvs k with
    | some x => .ok x
    | none => .error (.keyError k)
  | _ => .error (.typeError "not subscriptable")

/-- The table `HOMEWORK_VERDICTS` (homework.py lines 23-27). -/
def HOMEWORK_VERDICTS : List (String × String) :=
  [("approved", "Работа проверена: ревьюеру всё понравилось. Ура!"),
   ("reviewing", "Работа взята на проверку ревьюером."),
   ("rejected", "Работа проверена: у ревьюера есть замечания.")]

/-- The constant `RETRY_PERIOD` (homework.py line 19). -/
def RETRY_PERIOD : Nat := 600

/-- The value of the Python expression `["homeworks"][0]` appearing in
the guard on line 110 of `check_response`: indexing the one-element list
literal, which yields the constant string. -/
def homeworks_literal_index : Option String := ["homeworks"].get? 0

/-- The function `check_response` (homework.py lines 96-115): validates the API answer
and returns `response["homeworks"][0]`. -/
def check_response (response : PyVal) : Except PyErr PyVal :=
  match response with
  | .dict kvs =>
    if ¬ dictHasKey kvs "homeworks" then
      .error (.keyError "Отсутсвует ключ homeworks.")
    else
      match dictGet kvs "homeworks" with
      | some (.list homeworks) =>
        -- line 110: `if ["homeworks"][0] not in response:`
        match homeworks_literal_index with
        | none => .error (.indexError "list index out of range")
        | some k =>
          if ¬ dictHasKey kvs k then
            .error (.indexError "Домашняя работа отсутсвует в списке.")
          else
            -- line 113: `homework = response["homeworks"][0]`
            match homeworks.get? 0 with
            | none => .error (.indexError "list index out of range")
            | some hw => .ok hw
      | _ => .error (.typeError "Ошибка в типе данных: ответ должен содержать список.")
  | _ => .error (.typeError "Ошибка в типе данных: ответ должен содержать словарь.")

/-- Python `str(v)` as far as the program exercises it: the rendered
message interpolates `homework_name`, which in every run considered by the
specification is a string (containers would render through `repr`, which
this embedding does not model; no theorem below touches that case). -/
def pyStr : PyVal → String
  | .str s => s
  | .int n => toString n
  | .pyNone => "None"
  | .list _ => "[…]"
  | .dict _ => "{…}"

/-- The function `parse_status` (homework.py lines 118-134): checks the two required
keys, checks the status against `HOMEWORK_VERDICTS`, and renders the
status message. -/
def parse_status (homework : PyVal) : Except PyErr String :=
  -- `for key in ["homework_name", "status"]: if key not in homework: raise`
  match pyIn "homework_name" homework with
  | .error e => .error e
  | .ok b₁ =>
    if ¬ b₁ then .error (.keyError "Ключа homework_name нет в ответе API.")
    else
      match pyIn "status" homework with
      | .error e => .error e
      | .ok b₂ =>
        if ¬ b₂ then .error (.keyError "Ключа status нет в ответе API.")
        else
          match pySubscript homework "status" with
          | .error e => .error e
          | .ok homework_status =>
            -- `if homework_status not in HOMEWORK_VERDICTS:` — key
            -- membership in a dict: only a string can equal one of the
            -- string keys.
            match homework_status with
            | .str s =>
              match List.lookup s HOMEWORK_VERDICTS with
              | none => .error (.keyError "Неожиданный статус домашней работы.")
              | some verdict =>
                match pySubscript homework "homework_name" with
                | .error e => .error e
                | .ok homework_name =>
                  .ok ("Изменился статус проверки работы \"" ++ pyStr homework_name ++
                    "\". " ++ verdict)
            | _ => .error (.keyError "Неожиданный статус домашней работы.")

/-! ## Effects: events, network and messaging oracles -/

/-- Observable side effects of the program: log lines at their levels,
the outbound HTTP GET with its `from_date` query parameter, the outbound
Telegram send attempt (the call to `bot.send_message`), and the sleep at
the end of a loop iteration. -/
inductive Event where
  | logDebug (msg : String)
  | logInfo (msg : String)
  | logError (msg : String)
  | logCritical (msg : String)
  | httpGet (from_date : Int)
  | telegramSend (chat : String) (text : String)
  | sleep (seconds : Nat)
  deriving Repr, DecidableEq

/-- Outcome of calling `.json()` on a raw HTTP response body: a
valid-JSON body parses to a value; any other body makes `.json()` raise
the JSON decoder's error with the given message. -/
inductive JsonBody where
  | parsed (v : PyVal)
  | invalid (err : String)
  deriving Repr

/-- What `requests.get(ENDPOINT, ...)` did: either the transport raised
(DNS failure, timeout, connection reset, ...), or it returned a response
with a status code and a raw body, of which the embedding keeps what the
program observes — the outcome of `.json()` on it. -/
inductive FetchOutcome where
  | response (status_code : Nat) (body : JsonBody)
  | transportFailure (err : String)
  deriving Repr

/-- The pure result of `get_api_answer` (homework.py lines 75-93) given
the outcome of the GET call. A non-200 status raises
`Exception("Эндпоинт недоступен.")` inside the `try`; that exception —
like any transport exception — is caught by the blanket `except` and
replaced by `APIAnswerError` with a fixed message, so the original detail
is dropped. The `homework_statuses.json()` call on line 92 sits outside
the `try`, so on a 200 response whose body is not valid JSON the decode
error escapes un-normalized. -/
def get_api_answer_result (outcome : FetchOutcome) : Except PyErr PyVal :=
  match outcome with
  | .transportFailure _ => .error (.apiAnswerError "Незапланированная работа API.")
  | .response status_code body =>
    if status_code ≠ 200 then .error (.apiAnswerError "Незапланированная работа API.")
    else
      -- line 92: `homework_statuses = homework_statuses.json()`
      match body with
      | .parsed v => .ok v
      | .invalid err => .error (.jsonDecodeError err)

/-- The function `get_api_answer(timestamp)`: one outbound GET with
`payload = {"from_date": timestamp}`, then the result above. -/
def get_api_answer (timestamp : Int) (outcome : FetchOutcome) :
    List Event × Except PyErr PyVal :=
  ([.httpGet timestamp], get_api_answer_result outcome)

/-- What `bot.send_message(TELEGRAM_CHAT_ID, message)` did: delivered,
or raised with some error text. Either way the call is one outbound
send attempt. -/
inductive SendResult where
  | delivered
  | failed (err : String)
  deriving Repr

/-- The function `send_message` (homework.py lines 50-56). The `try` body attempts the
send and logs at DEBUG; the `except` clause catches any exception from
the attempt and logs at ERROR. The `Except` codomain records what the
caller can observe: the function returns normally on both paths. -/
def send_message (chat_id : String) (outcome : SendResult) (message : String) :
    Except PyErr (List Event) :=
  match outcome with
  | .delivered =>
    .ok [.telegramSend chat_id message,
         .logDebug ("Сообщение " ++ message ++ " отправлено пользователю.")]
  | .failed error =>
    .ok [.telegramSend chat_id message,
         .logError ("Сообщение не отправлено. Ошибка " ++ error ++ ".")]

/-- Events of a completed `send_message` call. -/
def okEvents : Except PyErr (List Event) → List Event
  | .ok evs => evs
  | .error _ => []

/-- The function `error_log_and_inf_in_telegram` (homework.py lines 59-72), with the
global `error_cache` passed and returned explicitly. Always logs the
message at ERROR; if the message is not yet in the cache, sends it and
appends it to the cache (the `except` clause is dead in practice, since
`send_message` swallows its own errors and `append` does not raise). -/
def error_log_and_inf_in_telegram (chat_id : String) (outcome : SendResult)
    (error_cache : List String) (message : String) : List Event × List String :=
  if message ∈ error_cache then
    ([.logError message], error_cache)
  else
    match send_message chat_id outcome message with
    | .ok evs => ([.logError message] ++ evs, error_cache ++ [message])
    | .error e =>
      ([.logError message,
        .logInfo ("Сообщение об ошибке отправить не удалось: " ++ PyErr.toStr e)],
       error_cache)

/-- Folding `error_log_and_inf_in_telegram` over a sequence of reported
error messages, each with the messaging oracle for its (possible) send. -/
def run_error_reports (chat_id : String) (error_cache : List String) :
    List (String × SendResult) → List Event × List String
  | [] => ([], error_cache)
  | (m, o) :: rest =>
    let step := error_log_and_inf_in_telegram chat_id o error_cache m
    let tail := run_error_reports chat_id step.2 rest
    (step.1 ++ tail.1, tail.2)

/-! ## Configuration and startup -/

/-- The three environment secrets read at module load (homework.py
lines 15-17); `os.getenv` yields `none` when the variable is unset. -/
structure Env where
  PRACTICUM_TOKEN : Option String
  TELEGRAM_TOKEN : Option String
  TELEGRAM_CHAT_ID : Option String

/-- Python truthiness of an `os.getenv` result: `None` and the empty
string are falsy. -/
def truthy : Option String → Bool
  | none => false
  | some s => !s.isEmpty

/-- The function `check_tokens` (homework.py lines 42-47). -/
def check_tokens (env : Env) : Bool :=
  if truthy env.PRACTICUM_TOKEN && truthy env.TELEGRAM_TOKEN &&
      truthy env.TELEGRAM_CHAT_ID then
    true
  else
    false

/-- The mutable state owned by `main`: the poll cursor `timestamp`, the
seen-message `cache`, and the module-level `error_cache`. -/
structure LoopState where
  timestamp : Int
  cache : List String
  error_cache : List String
  deriving Repr

/-- Oracle inputs consumed by one iteration of the `while True` loop:
the outcome of the GET and the outcome of the (at most one) Telegram
send attempted in that iteration. -/
structure IterationInput where
  fetch : FetchOutcome
  send : SendResult

/-- What `main` (homework.py lines 137-164) does before the loop: exit
via `SystemExit` after a CRITICAL log when `check_tokens()` is false,
otherwise enter the polling loop with `timestamp = int(time.time())`
and both caches empty. -/
inductive MainResult where
  | exited (events : List Event)
  | looping (events : List Event) (st : LoopState)

/-- Events emitted during startup, in either case. -/
def MainResult.events : MainResult → List Event
  | .exited evs => evs
  | .looping evs _ => evs

/-- Startup portion of `main` (homework.py lines 141-148). -/
def main_startup (env : Env) (now : Int) : MainResult :=
  if ¬ check_tokens env then
    .exited [.logCritical "Отсутствуют обязательные переменные окружения!"]
  else
    .looping [] { timestamp := now, cache := [], error_cache := [] }

/-! ## The main loop body -/

/-- The fetch → validate → render pipeline of one loop iteration
(homework.py lines 152-154), as a pure `Except` chain. -/
def rendered_message (inp : IterationInput) : Except PyErr String :=
  match get_api_answer_result inp.fetch with
  | .error e => .error e
  | .ok response =>
    match check_response response with
    | .error e => .error e
    | .ok homework => parse_status homework

/-- One iteration of the `while True` loop (homework.py lines 150-164):
the `try` body runs the pipeline and either logs at DEBUG (message
already cached) or appends to the cache and sends; the `except` clause
wraps any pipeline exception into `"Сбой в работе программы: ..."` and
routes it to `error_log_and_inf_in_telegram`; the `finally` clause
sleeps `RETRY_PERIOD`. -/
def main_iteration (chat_id : String) (st : LoopState) (inp : IterationInput) :
    List Event × LoopState :=
  let (fetchEvs, apiResult) := get_api_answer st.timestamp inp.fetch
  let handleErr : PyErr → LoopState → List Event × LoopState := fun e stE =>
    let message := "Сбой в работе программы: " ++ PyErr.toStr e
    let (errEvs, ec) := error_log_and_inf_in_telegram chat_id inp.send stE.error_cache message
    (errEvs, { stE with error_cache := ec })
  let body : List Event × LoopState :=
    match apiResult with
    | .error e => handleErr e st
    | .ok response =>
      match check_response response with
      | .error e => handleErr e st
      | .ok homework =>
        match parse_status homework with
        | .error e => handleErr e st
        | .ok message =>
          if message ∈ st.cache then
            ([.logDebug "Новый статус ДЗ отсутсвует."], st)
          else
            -- line 158-159: append first, then send
            let st₁ := { st with cache := st.cache ++ [message] }
            match send_message chat_id inp.send message with
            | .ok evs => (evs, st₁)
            | .error e => handleErr e st₁
  (fetchEvs ++ body.1 ++ [.sleep RETRY_PERIOD], body.2)

/-- A finite prefix of the infinite loop: run the iterations for the
given list of oracle inputs. -/
def runIterations (chat_id : String) (st : LoopState) :
    List IterationInput → List Event × LoopState
  | [] => ([], st)
  | inp :: rest =>
    let step := main_iteration chat_id st inp
    let tail := runIterations chat_id step.2 rest
    (step.1 ++ tail.1, tail.2)

/-! ## Event counting -/

/-- Is this event a Telegram send attempt of exactly this text? -/
def Event.isSendOf (text : String) : Event → Bool
  | .telegramSend _ t => t == text
  | _ => false

/-- Is this event an ERROR log line of exactly this text? -/
def Event.isErrorLogOf (text : String) : Event → Bool
  | .logError t => t == text
  | _ => false

/-- Is this event a DEBUG log line of exactly this text? -/
def Event.isDebugLogOf (text : String) : Event → Bool
  | .logDebug t => t == text
  | _ => false

/-- Is this event a sleep? -/
def Event.isSleep : Event → Bool
  | .sleep _ => true
  | _ => false

/-- Number of Telegram send attempts of the given text. -/
def countSends (text : String) (evs : List Event) : Nat :=
  (evs.filter (Event.isSendOf text)).length

/-- Number of ERROR log lines of the given text. -/
def countErrorLogs (text : String) (evs : List Event) : Nat :=
  (evs.filter (Event.isErrorLogOf text)).length

/-- Number of DEBUG log lines of the given text. -/
def countDebugLogs (text : String) (evs : List Event) : Nat :=
  (evs.filter (Event.isDebugLogOf text)).length

/-- Number of sleeps. -/
def countSleeps (evs : List Event) : Nat :=
  (evs.filter Event.isSleep).length

/-! ## Basic lemmas -/

theorem dictHasKey_of_dictGet {kvs : List (String × PyVal)} {k : String} {v : PyVal}
    (h : dictGet kvs k = some v) : dictHasKey kvs k = true := by
  induction kvs with
  | nil => simp [dictGet] at h
  | cons p rest ih =>
    obtain ⟨k₁, v₁⟩ := p
    by_cases hk : k₁ == k
    · simp [dictHasKey, hk]
    · simp only [dictGet, hk, if_false, Bool.false_eq_true, ite_false] at h
      simp [dictHasKey, hk, ih h]

theorem countSends_append (s : String) (a b : List Event) :
    countSends s (a ++ b) = countSends s a + countSends s b := by
  simp [countSends, List.filter_append]

theorem countErrorLogs_append (s : String) (a b : List Event) :
    countErrorLogs s (a ++ b) = countErrorLogs s a + countErrorLogs s b := by
  simp [countErrorLogs, List.filter_append]

theorem countDebugLogs_append (s : String) (a b : List Event) :
    countDebugLogs s (a ++ b) = countDebugLogs s a + countDebugLogs s b := by
  simp [countDebugLogs, List.filter_append]

theorem countSleeps_append (a b : List Event) :
    countSleeps (a ++ b) = countSleeps a + countSleeps b := by
  simp [countSleeps, List.filter_append]

theorem countSends_okEvents_send (chat_id : String) (o : SendResult) (m s : String) :
    countSends s (okEvents (send_message chat_id o m)) = if m = s then 1 else 0 := by
  cases o <;> by_cases h : m = s <;>
    simp [send_message, okEvents, countSends, Event.isSendOf, List.filter_cons, h]

/-- Evaluation of `error_log_and_inf_in_telegram` when the message is already cached:
one ERROR log line, nothing else, cache untouched. -/
theorem error_report_cached (chat_id : String) (o : SendResult) (ec : List String)
    (m : String) (h : m ∈ ec) :
    error_log_and_inf_in_telegram chat_id o ec m = ([.logError m], ec) := by
  simp [error_log_and_inf_in_telegram, h]

/-- Evaluation of `error_log_and_inf_in_telegram` on a fresh message: the ERROR log
line, then the events of one send attempt, and the message is appended
to the cache. -/
theorem error_report_fresh (chat_id : String) (o : SendResult) (ec : List String)
    (m : String) (h : m ∉ ec) :
    error_log_and_inf_in_telegram chat_id o ec m =
      ([Event.logError m] ++ okEvents (send_message chat_id o m), ec ++ [m]) := by
  cases o <;> simp [error_log_and_inf_in_telegram, h, send_message, okEvents]

theorem error_report_cached_fst (chat_id : String) (o : SendResult) (ec : List String)
    (m : String) (h : m ∈ ec) :
    (error_log_and_inf_in_telegram chat_id o ec m).1 = [Event.logError m] := by
  rw [error_report_cached chat_id o ec m h]

theorem error_report_cached_snd (chat_id : String) (o : SendResult) (ec : List String)
    (m : String) (h : m ∈ ec) :
    (error_log_and_inf_in_telegram chat_id o ec m).2 = ec := by
  rw [error_report_cached chat_id o ec m h]

theorem error_report_fresh_fst (chat_id : String) (o : SendResult) (ec : List String)
    (m : String) (h : m ∉ ec) :
    (error_log_and_inf_in_telegram chat_id o ec m).1 =
      [Event.logError m] ++ okEvents (send_message chat_id o m) := by
  rw [error_report_fresh chat_id o ec m h]

theorem error_report_fresh_snd (chat_id : String) (o : SendResult) (ec : List String)
    (m : String) (h : m ∉ ec) :
    (error_log_and_inf_in_telegram chat_id o ec m).2 = ec ++ [m] := by
  rw [error_report_fresh chat_id o ec m h]

theorem countSends_single_logError (s m : String) : countSends s [Event.logError m] = 0 := rfl

theorem countErrorLogs_single_logError (s m : String) :
    countErrorLogs s [Event.logError m] = if m = s then 1 else 0 := by
  by_cases h : m = s <;> simp [countErrorLogs, Event.isErrorLogOf, List.filter_cons, h]

theorem run_error_reports_cons_fst (chat_id : String) (ec : List String) (m : String)
    (o : SendResult) (rest : List (String × SendResult)) :
    (run_error_reports chat_id ec ((m, o) :: rest)).1 =
      (error_log_and_inf_in_telegram chat_id o ec m).1 ++
        (run_error_reports chat_id (error_log_and_inf_in_telegram chat_id o ec m).2 rest).1 :=
  rfl

theorem run_error_reports_cons_snd (chat_id : String) (ec : List String) (m : String)
    (o : SendResult) (rest : List (String × SendResult)) :
    (run_error_reports chat_id ec ((m, o) :: rest)).2 =
      (run_error_reports chat_id (error_log_and_inf_in_telegram chat_id o ec m).2 rest).2 :=
  rfl

theorem run_error_reports_sends_of_mem (chat_id : String)
    (reports : List (String × SendResult)) :
    ∀ ec s, s ∈ ec → countSends s (run_error_reports chat_id ec reports).1 = 0 := by
  induction reports with
  | nil => intro ec s _; rfl
  | cons p rest ih =>
    intro ec s h
    obtain ⟨m, o⟩ := p
    rw [run_error_reports_cons_fst, countSends_append]
    by_cases hm : m ∈ ec
    · rw [error_report_cached_fst chat_id o ec m hm, error_report_cached_snd chat_id o ec m hm,
        countSends_single_logError, ih ec s h]
    · have hms : ¬ (m = s) := fun he => hm (he ▸ h)
      rw [error_report_fresh_fst chat_id o ec m hm, error_report_fresh_snd chat_id o ec m hm,
        countSends_append, countSends_single_logError, countSends_okEvents_send,
        if_neg hms, ih (ec ++ [m]) s (by simp [h])]

theorem run_error_reports_sends_le_one (chat_id : String)
    (reports : List (String × SendResult)) :
    ∀ ec s, countSends s (run_error_reports chat_id ec reports).1 ≤ 1 := by
  induction reports with
  | nil => intro ec s; exact Nat.zero_le 1
  | cons p rest ih =>
    intro ec s
    obtain ⟨m, o⟩ := p
    rw [run_error_reports_cons_fst, countSends_append]
    by_cases hm : m ∈ ec
    · rw [error_report_cached_fst chat_id o ec m hm, error_report_cached_snd chat_id o ec m hm,
        countSends_single_logError]
      simpa using ih ec s
    · rw [error_report_fresh_fst chat_id o ec m hm, error_report_fresh_snd chat_id o ec m hm,
        countSends_append, countSends_single_logError, countSends_okEvents_send]
      by_cases hms : m = s
      · subst hms
        rw [run_error_reports_sends_of_mem chat_id rest (ec ++ [m]) m (by simp), if_pos rfl]
      · rw [if_neg hms]
        simpa using ih (ec ++ [m]) s

theorem run_error_reports_logs (chat_id : String)
    (reports : List (String × SendResult)) :
    ∀ ec s, (reports.filter (fun p => p.1 == s)).length ≤
      countErrorLogs s (run_error_reports chat_id ec reports).1 := by
  induction reports with
  | nil => intro ec s; exact Nat.le_refl 0
  | cons p rest ih =>
    intro ec s
    obtain ⟨m, o⟩ := p
    rw [run_error_reports_cons_fst, countErrorLogs_append, List.filter_cons]
    have hstep : (if m = s then 1 else 0) ≤
        countErrorLogs s (error_log_and_inf_in_telegram chat_id o ec m).1 := by
      by_cases hm : m ∈ ec
      · rw [error_report_cached_fst chat_id o ec m hm, countErrorLogs_single_logError]
      · rw [error_report_fresh_fst chat_id o ec m hm, countErrorLogs_append,
          countErrorLogs_single_logError]
        exact Nat.le_add_right _ _
    have htail := ih (error_log_and_inf_in_telegram chat_id o ec m).2 s
    by_cases hms : m = s
    · subst hms
      simp only [beq_self_eq_true, if_pos, List.length_cons]
      have h1 : (1 : Nat) ≤ countErrorLogs m (error_log_and_inf_in_telegram chat_id o ec m).1 := by
        simpa using hstep
      omega
    · have : (m == s) = false := beq_eq_false_iff_ne.mpr hms
      simp only [this, Bool.false_eq_true, if_false]
      omega

theorem run_error_reports_cache_mono (chat_id : String)
    (reports : List (String × SendResult)) :
    ∀ ec x, x ∈ ec → x ∈ (run_error_reports chat_id ec reports).2 := by
  induction reports with
  | nil => intro ec x h; exact h
  | cons p rest ih =>
    intro ec x h
    obtain ⟨m, o⟩ := p
    rw [run_error_reports_cons_snd]
    by_cases hm : m ∈ ec
    · rw [error_report_cached_snd chat_id o ec m hm]
      exact ih ec x h
    · rw [error_report_fresh_snd chat_id o ec m hm]
      exact ih (ec ++ [m]) x (by simp [h])

theorem run_error_reports_cache_mem (chat_id : String)
    (reports : List (String × SendResult)) :
    ∀ ec s o, (s, o) ∈ reports → s ∈ (run_error_reports chat_id ec reports).2 := by
  induction reports with
  | nil => intro ec s o h; simp at h
  | cons p rest ih =>
    intro ec s o h
    obtain ⟨m, o'⟩ := p
    rw [run_error_reports_cons_snd]
    rcases List.mem_cons.mp h with h₁ | h₂
    · injection h₁ with hs _
      subst hs
      by_cases hm : s ∈ ec
      · rw [error_report_cached_snd chat_id o' ec s hm]
        exact run_error_reports_cache_mono chat_id rest ec s hm
      · rw [error_report_fresh_snd chat_id o' ec s hm]
        exact run_error_reports_cache_mono chat_id rest (ec ++ [s]) s (by simp)
    · by_cases hm : m ∈ ec
      · rw [error_report_cached_snd chat_id o' ec m hm]
        exact ih ec s o h₂
      · rw [error_report_fresh_snd chat_id o' ec m hm]
        exact ih (ec ++ [m]) s o h₂

/-! ## Shape of one loop iteration -/

/-- A failing pipeline: the iteration is the GET, the error-reporter
events for the wrapped message, and the sleep; only `error_cache` can
change. -/
theorem main_iteration_err (chat_id : String) (st : LoopState) (inp : IterationInput)
    (e : PyErr) (h : rendered_message inp = .error e) :
    main_iteration chat_id st inp =
      ([Event.httpGet st.timestamp] ++
        (error_log_and_inf_in_telegram chat_id inp.send st.error_cache
          ("Сбой в работе программы: " ++ PyErr.toStr e)).1 ++ [Event.sleep RETRY_PERIOD],
       { st with error_cache :=
          (error_log_and_inf_in_telegram chat_id inp.send st.error_cache
            ("Сбой в работе программы: " ++ PyErr.toStr e)).2 }) := by
  cases h₁ : get_api_answer_result inp.fetch with
  | error e₁ =>
    simp only [rendered_message, h₁] at h
    injection h with he
    subst he
    simp [main_iteration, get_api_answer, h₁]
  | ok response =>
    cases h₂ : check_response response with
    | error e₂ =>
      simp only [rendered_message, h₁, h₂] at h
      injection h with he
      subst he
      simp [main_iteration, get_api_answer, h₁, h₂]
    | ok homework =>
      cases h₃ : parse_status homework with
      | error e₃ =>
        simp only [rendered_message, h₁, h₂, h₃] at h
        injection h with he
        subst he
        simp [main_iteration, get_api_answer, h₁, h₂, h₃]
      | ok message =>
        simp [rendered_message, h₁, h₂, h₃] at h

/-- A successful pipeline whose message is already cached: the iteration
is the GET, the DEBUG "no new status" line, and the sleep; the state is
unchanged. -/
theorem main_iteration_dup (chat_id : String) (st : LoopState) (inp : IterationInput)
    (m : String) (h : rendered_message inp = .ok m) (hm : m ∈ st.cache) :
    main_iteration chat_id st inp =
      ([Event.httpGet st.timestamp, Event.logDebug "Новый статус ДЗ отсутсвует.",
        Event.sleep RETRY_PERIOD], st) := by
  cases h₁ : get_api_answer_result inp.fetch with
  | error e₁ => simp [rendered_message, h₁] at h
  | ok response =>
    cases h₂ : check_response response with
    | error e₂ => simp [rendered_message, h₁, h₂] at h
    | ok homework =>
      cases h₃ : parse_status homework with
      | error e₃ => simp [rendered_message, h₁, h₂, h₃] at h
      | ok message =>
        simp only [rendered_message, h₁, h₂, h₃] at h
        injection h with he
        subst he
        simp [main_iteration, get_api_answer, h₁, h₂, h₃, hm]

/-- A successful pipeline whose message is new: the iteration is the
GET, the events of one send attempt, and the sleep; the message is
appended to the seen-message cache (before the send, as in the source). -/
theorem main_iteration_new (chat_id : String) (st : LoopState) (inp : IterationInput)
    (m : String) (h : rendered_message inp = .ok m) (hm : m ∉ st.cache) :
    main_iteration chat_id st inp =
      ([Event.httpGet st.timestamp] ++ okEvents (send_message chat_id inp.send m) ++
        [Event.sleep RETRY_PERIOD],
       { st with cache := st.cache ++ [m] }) := by
  cases h₁ : get_api_answer_result inp.fetch with
  | error e₁ => simp [rendered_message, h₁] at h
  | ok response =>
    cases h₂ : check_response response with
    | error e₂ => simp [rendered_message, h₁, h₂] at h
    | ok homework =>
      cases h₃ : parse_status homework with
      | error e₃ => simp [rendered_message, h₁, h₂, h₃] at h
      | ok message =>
        simp only [rendered_message, h₁, h₂, h₃] at h
        injection h with he
        subst he
        cases hs : inp.send <;>
          simp [main_iteration, get_api_answer, h₁, h₂, h₃, hm, hs, send_message, okEvents]

theorem runIterations_cons_fst (chat_id : String) (st : LoopState) (inp : IterationInput)
    (rest : List IterationInput) :
    (runIterations chat_id st (inp :: rest)).1 =
      (main_iteration chat_id st inp).1 ++
        (runIterations chat_id (main_iteration chat_id st inp).2 rest).1 := rfl

theorem runIterations_cons_snd (chat_id : String) (st : LoopState) (inp : IterationInput)
    (rest : List IterationInput) :
    (runIterations chat_id st (inp :: rest)).2 =
      (runIterations chat_id (main_iteration chat_id st inp).2 rest).2 := rfl

theorem if_mem_cons_ne {s m : String} (l : List String) (h : ¬ s = m) (a b : Nat) :
    (if s ∈ m :: l then a else b) = if s ∈ l then a else b := by
  simp [List.mem_cons, h]

/-- Invariant of a run whose every iteration renders a message: the
seen-message cache collects exactly the rendered messages, each message
is sent exactly once (and never if it started in the cache), and neither
the error cache nor the cursor moves. -/
theorem runIterations_ok_inv (chat_id : String) (pairs : List (IterationInput × String)) :
    ∀ ts c ec, (∀ p ∈ pairs, rendered_message p.1 = .ok p.2) →
      (∀ s, s ∈ (runIterations chat_id ⟨ts, c, ec⟩ (pairs.map Prod.fst)).2.cache ↔
        (s ∈ c ∨ s ∈ pairs.map Prod.snd)) ∧
      (∀ s, countSends s (runIterations chat_id ⟨ts, c, ec⟩ (pairs.map Prod.fst)).1 =
        if s ∈ c then 0 else if s ∈ pairs.map Prod.snd then 1 else 0) ∧
      (runIterations chat_id ⟨ts, c, ec⟩ (pairs.map Prod.fst)).2.error_cache = ec := by
  induction pairs with
  | nil =>
    intro ts c ec _
    refine ⟨fun s => by simp [runIterations], fun s => ?_, rfl⟩
    by_cases hs : s ∈ c <;> simp [runIterations, countSends, hs]
  | cons p rest ih =>
    intro ts c ec hall
    obtain ⟨inp, m⟩ := p
    have hren : rendered_message inp = .ok m := hall (inp, m) (List.mem_cons_self _ _)
    have hrest : ∀ q ∈ rest, rendered_message q.1 = .ok q.2 :=
      fun q hq => hall q (List.mem_cons_of_mem _ hq)
    rw [List.map_cons, List.map_cons]
    by_cases hm : m ∈ c
    · have hiter : main_iteration chat_id ⟨ts, c, ec⟩ inp =
          ([Event.httpGet ts, Event.logDebug "Новый статус ДЗ отсутсвует.",
            Event.sleep RETRY_PERIOD], ⟨ts, c, ec⟩) :=
        main_iteration_dup chat_id ⟨ts, c, ec⟩ inp m hren hm
      obtain ⟨ih1, ih2, ih3⟩ := ih ts c ec hrest
      refine ⟨?_, ?_, ?_⟩
      · intro s
        rw [runIterations_cons_snd, hiter, ih1 s, List.mem_cons]
        by_cases hsm : s = m
        · subst hsm; simp [hm]
        · simp [hsm]
      · intro s
        rw [runIterations_cons_fst, hiter, countSends_append, ih2 s]
        have h0 : countSends s [Event.httpGet ts,
            Event.logDebug "Новый статус ДЗ отсутсвует.", Event.sleep RETRY_PERIOD] = 0 := rfl
        rw [h0]
        by_cases hs : s ∈ c
        · simp [hs]
        · have hsm : ¬ s = m := fun hh => hs (hh ▸ hm)
          rw [if_mem_cons_ne _ hsm]
          simp [hs]
      · rw [runIterations_cons_snd, hiter]; exact ih3
    · have hiter : main_iteration chat_id ⟨ts, c, ec⟩ inp =
          ([Event.httpGet ts] ++ okEvents (send_message chat_id inp.send m) ++
            [Event.sleep RETRY_PERIOD], ⟨ts, c ++ [m], ec⟩) :=
        main_iteration_new chat_id ⟨ts, c, ec⟩ inp m hren hm
      obtain ⟨ih1, ih2, ih3⟩ := ih ts (c ++ [m]) ec hrest
      have hevs : ∀ s, countSends s ([Event.httpGet ts] ++
          okEvents (send_message chat_id inp.send m) ++ [Event.sleep RETRY_PERIOD]) =
          if m = s then 1 else 0 := by
        intro s
        rw [countSends_append, countSends_append, countSends_okEvents_send]
        simp [countSends, Event.isSendOf]
      refine ⟨?_, ?_, ?_⟩
      · intro s
        rw [runIterations_cons_snd, hiter, ih1 s, List.mem_cons]
        simp only [List.mem_append, List.mem_singleton]
        tauto
      · intro s
        rw [runIterations_cons_fst, hiter, countSends_append, hevs s, ih2 s]
        have happ : ∀ a b : Nat, (if s ∈ c ++ [m] then a else b) =
            if s ∈ c ∨ s = m then a else b := by
          intro a b
          simp [List.mem_append, List.mem_singleton]
        by_cases hs : s ∈ c
        · have hms : ¬ m = s := fun hh => hm (hh ▸ hs)
          rw [happ]
          simp [hs, hms]
        · by_cases hsm : s = m
          · subst hsm
            rw [happ]
            simp [hs, List.mem_cons]
          · have hms : ¬ m = s := fun hh => hsm hh.symm
            rw [happ, if_mem_cons_ne _ hsm]
            simp [hs, hsm, hms]
      · rw [runIterations_cons_snd, hiter]; exact ih3

theorem countSleeps_okEvents_send (chat_id : String) (o : SendResult) (m : String) :
    countSleeps (okEvents (send_message chat_id o m)) = 0 := by
  cases o <;> rfl

theorem countSleeps_error_report (chat_id : String) (o : SendResult) (ec : List String)
    (m : String) :
    countSleeps (error_log_and_inf_in_telegram chat_id o ec m).1 = 0 := by
  by_cases hm : m ∈ ec
  · rw [error_report_cached_fst chat_id o ec m hm]; rfl
  · rw [error_report_fresh_fst chat_id o ec m hm, countSleeps_append,
      countSleeps_okEvents_send]; rfl

/-- Every iteration sleeps exactly once. -/
theorem countSleeps_main_iteration (chat_id : String) (st : LoopState) (inp : IterationInput) :
    countSleeps (main_iteration chat_id st inp).1 = 1 := by
  cases hr : rendered_message inp with
  | error e =>
    rw [main_iteration_err chat_id st inp e hr, countSleeps_append, countSleeps_append,
      countSleeps_error_report]
    rfl
  | ok m =>
    by_cases hm : m ∈ st.cache
    · rw [main_iteration_dup chat_id st inp m hr hm]; rfl
    · rw [main_iteration_new chat_id st inp m hr hm, countSleeps_append, countSleeps_append,
        countSleeps_okEvents_send]
      rfl

theorem countSleeps_runIterations (chat_id : String) (inps : List IterationInput) :
    ∀ st, countSleeps (runIterations chat_id st inps).1 = inps.length := by
  induction inps with
  | nil => intro st; rfl
  | cons inp rest ih =>
    intro st
    rw [runIterations_cons_fst, countSleeps_append, countSleeps_main_iteration, ih]
    simp [Nat.add_comm]

theorem noHttpGet_okEvents_send (chat_id : String) (o : SendResult) (m : String) (d : Int) :
    Event.httpGet d ∉ okEvents (send_message chat_id o m) := by
  cases o <;> simp [send_message, okEvents]

theorem noHttpGet_error_report (chat_id : String) (o : SendResult) (ec : List String)
    (m : String) (d : Int) :
    Event.httpGet d ∉ (error_log_and_inf_in_telegram chat_id o ec m).1 := by
  by_cases hm : m ∈ ec
  · rw [error_report_cached_fst chat_id o ec m hm]; simp
  · rw [error_report_fresh_fst chat_id o ec m hm]
    simp [noHttpGet_okEvents_send chat_id o m d]

/-- No iteration changes the poll cursor. -/
theorem main_iteration_timestamp (chat_id : String) (st : LoopState) (inp : IterationInput) :
    (main_iteration chat_id st inp).2.timestamp = st.timestamp := by
  cases hr : rendered_message inp with
  | error e => rw [main_iteration_err chat_id st inp e hr]
  | ok m =>
    by_cases hm : m ∈ st.cache
    · rw [main_iteration_dup chat_id st inp m hr hm]
    · rw [main_iteration_new chat_id st inp m hr hm]

/-- Every GET of an iteration carries the state's cursor. -/
theorem main_iteration_httpGet (chat_id : String) (st : LoopState) (inp : IterationInput)
    (d : Int) (h : Event.httpGet d ∈ (main_iteration chat_id st inp).1) :
    d = st.timestamp := by
  cases hr : rendered_message inp with
  | error e =>
    rw [main_iteration_err chat_id st inp e hr] at h
    simpa [List.mem_append,
      noHttpGet_error_report chat_id inp.send st.error_cache
        ("Сбой в работе программы: " ++ PyErr.toStr e) d] using h
  | ok m =>
    by_cases hm : m ∈ st.cache
    · rw [main_iteration_dup chat_id st inp m hr hm] at h
      simpa using h
    · rw [main_iteration_new chat_id st inp m hr hm] at h
      simpa [List.mem_append, noHttpGet_okEvents_send chat_id inp.send m d] using h

theorem runIterations_cursor (chat_id : String) (inps : List IterationInput) :
    ∀ st, (runIterations chat_id st inps).2.timestamp = st.timestamp ∧
      ∀ d, Event.httpGet d ∈ (runIterations chat_id st inps).1 → d = st.timestamp := by
  induction inps with
  | nil => intro st; exact ⟨rfl, by simp [runIterations]⟩
  | cons inp rest ih =>
    intro st
    constructor
    · rw [runIterations_cons_snd, (ih (main_iteration chat_id st inp).2).1,
        main_iteration_timestamp]
    · intro d hd
      rw [runIterations_cons_fst] at hd
      rcases List.mem_append.mp hd with h | h
      · exact main_iteration_httpGet chat_id st inp d h
      · have hh := (ih (main_iteration chat_id st inp).2).2 d h
        rw [main_iteration_timestamp] at hh
        exact hh

/-! ## Claim theorems -/

/-- C2: `parse_status` renders any item whose `homework_name` is a string
and whose `status` is one of the keys of `HOMEWORK_VERDICTS` to the fixed
sentence combining the name with that status's fixed phrase (the witness
instantiates this at `{"homework_name": "X", "status": "approved"}` and
the exact Russian sentence of the specification). -/
theorem C2_parse_status_renders (d : List (String × PyVal)) (name status phrase : String)
    (hname : dictGet d "homework_name" = some (.str name))
    (hstatus : dictGet d "status" = some (.str status))
    (hphrase : List.lookup status HOMEWORK_VERDICTS = some phrase) :
    parse_status (.dict d) =
      .ok ("Изменился статус проверки работы \"" ++ name ++ "\". " ++ phrase) := by
  have h1 := dictHasKey_of_dictGet hname
  have h2 := dictHasKey_of_dictGet hstatus
  simp [parse_status, pyIn, pySubscript, h1, h2, hname, hstatus, hphrase, pyStr]

/-- Witness for C2: the concrete item of the specification renders to
exactly the specified sentence. -/
theorem C2_parse_status_renders_witness :
    parse_status (.dict [("homework_name", .str "X"), ("status", .str "approved")]) =
      .ok ("Изменился статус проверки работы \"" ++ "X" ++ "\". " ++
        "Работа проверена: ревьюеру всё понравилось. Ура!") :=
  C2_parse_status_renders [("homework_name", .str "X"), ("status", .str "approved")]
    "X" "approved" "Работа проверена: ревьюеру всё понравилось. Ура!" rfl rfl rfl

/-- C3: on `{"homeworks": []}` the extraction fails with an index/lookup
error (the `IndexError` Python raises at `response["homeworks"][0]`), not
with any other exception kind and not by returning a value. -/
theorem C3_check_response_empty_list :
    check_response (.dict [("homeworks", .list [])]) =
      .error (.indexError "list index out of range") := rfl

/-- Counterexample to C4 as stated: a 200 response whose body is not
valid JSON does not succeed — `homework_statuses.json()` on line 92 runs
outside the `try`, so the decoder's error escapes `get_api_answer`
without being normalized into `APIAnswerError`. -/
theorem C4_get_api_answer_status_counterexample :
    (get_api_answer_result
      (.response 200 (.invalid "Expecting value: line 1 column 1 (char 0)"))).isOk = false ∧
    get_api_answer_result
        (.response 200 (.invalid "Expecting value: line 1 column 1 (char 0)")) =
      .error (.jsonDecodeError "Expecting value: line 1 column 1 (char 0)") :=
  ⟨rfl, rfl⟩

/-- C4 (amended): `get_api_answer` succeeds exactly when the HTTP status
is 200 and the body parses as JSON; every non-200 status and every
transport failure yields `APIAnswerError` whose message is the fixed
string that carries no detail of the original failure; the only other
outcome is the un-normalized JSON decode error of a 200 response with an
unparseable body. -/
theorem C4_get_api_answer_status (outcome : FetchOutcome) :
    ((∃ json, get_api_answer_result outcome = .ok json) ↔
      (∃ v, outcome = .response 200 (.parsed v))) ∧
    (∀ e, get_api_answer_result outcome = .error e →
      e = .apiAnswerError "Незапланированная работа API." ∨
      ∃ err, outcome = .response 200 (.invalid err) ∧ e = .jsonDecodeError err) ∧
    (∀ sc body, outcome = .response sc body → sc ≠ 200 →
      get_api_answer_result outcome =
        .error (.apiAnswerError "Незапланированная работа API.")) ∧
    (∀ err, outcome = .transportFailure err →
      get_api_answer_result outcome =
        .error (.apiAnswerError "Незапланированная работа API.")) := by
  cases outcome with
  | transportFailure err => simp [get_api_answer_result]
  | response sc body =>
    by_cases h : sc = 200
    · subst h
      cases body <;> simp [get_api_answer_result]
    · cases body <;> simp [get_api_answer_result, h]

/-- Witness for C4: a parseable 200 response succeeds; a transport
failure and a 404 both map to the fixed `APIAnswerError` message. -/
theorem C4_get_api_answer_status_witness :
    (∃ json, get_api_answer_result (.response 200 (.parsed (.int 0))) = .ok json) ∧
    get_api_answer_result (.transportFailure "connection reset") =
      .error (.apiAnswerError "Незапланированная работа API.") ∧
    get_api_answer_result (.response 404 (.parsed (.int 0))) =
      .error (.apiAnswerError "Незапланированная работа API.") :=
  ⟨(C4_get_api_answer_status (.response 200 (.parsed (.int 0)))).1.2 ⟨.int 0, rfl⟩,
   (C4_get_api_answer_status (.transportFailure "connection reset")).2.2.2
     "connection reset" rfl,
   (C4_get_api_answer_status (.response 404 (.parsed (.int 0)))).2.2.1
     404 (.parsed (.int 0)) rfl (by decide)⟩

/-- C6: `send_message` returns normally for every behaviour of the
underlying Telegram client, and when the client raised, the failure was
logged at ERROR level inside the operation. -/
theorem C6_send_message_never_raises (chat_id : String) (outcome : SendResult)
    (message : String) :
    (send_message chat_id outcome message).isOk = true ∧
    ∀ err, outcome = .failed err →
      Event.logError ("Сообщение не отправлено. Ошибка " ++ err ++ ".") ∈
        okEvents (send_message chat_id outcome message) := by
  constructor
  · cases outcome <;> rfl
  · intro err h
    subst h
    simp [send_message, okEvents]

/-- Witness for C6 at a concrete failing send. -/
theorem C6_send_message_never_raises_witness :
    (send_message "42" (.failed "boom") "hello").isOk = true ∧
    Event.logError ("Сообщение не отправлено. Ошибка " ++ "boom" ++ ".") ∈
      okEvents (send_message "42" (.failed "boom") "hello") :=
  ⟨(C6_send_message_never_raises "42" (.failed "boom") "hello").1,
   (C6_send_message_never_raises "42" (.failed "boom") "hello").2 "boom" rfl⟩

/-- C10: the expression `["homeworks"][0]` on line 110 is the constant
string `"homeworks"`, so the guarded `raise IndexError` branch of
`check_response` can never fire on any input — an empty `homeworks` list
instead produces Python's own `IndexError` at the final indexing. -/
theorem C10_index_error_branch_dead :
    homeworks_literal_index = some "homeworks" ∧
    (∀ response, check_response response ≠
      .error (.indexError "Домашняя работа отсутсвует в списке.")) ∧
    check_response (.dict [("homeworks", .list [])]) =
      .error (.indexError "list index out of range") := by
  refine ⟨rfl, ?_, rfl⟩
  intro response h
  match response with
  | .str _ | .int _ | .pyNone | .list _ => simp [check_response] at h
  | .dict kvs =>
    by_cases hk : dictHasKey kvs "homeworks" = true
    · simp only [check_response, hk, homeworks_literal_index] at h
      split at h
      · simp at h
      · split at h
        · simp [hk] at h
          split at h
          · simp at h
          · simp at h
        · simp at h
    · simp [check_response, hk] at h

/-- Witness for C10: applying the dead-branch theorem at the concrete
empty-list response. -/
theorem C10_index_error_branch_dead_witness :
    check_response (.dict [("homeworks", .list [])]) ≠
      .error (.indexError "Домашняя работа отсутсвует в списке.") :=
  C10_index_error_branch_dead.2.1 (.dict [("homeworks", .list [])])

/-- C5: over any sequence of error reports within one process lifetime
(the error-dedup cache starts empty), each distinct error string causes
at most one Telegram send attempt; a string reported at least once is in
the final cache; the cache only ever grows; and every report of a string
yields an ERROR log line for it. -/
theorem C5_error_dedup (chat_id : String) (reports : List (String × SendResult))
    (s : String) :
    countSends s (run_error_reports chat_id [] reports).1 ≤ 1 ∧
    (reports.filter (fun p => p.1 == s)).length ≤
      countErrorLogs s (run_error_reports chat_id [] reports).1 ∧
    (∀ ec x, x ∈ ec → x ∈ (run_error_reports chat_id ec reports).2) ∧
    (∀ o, (s, o) ∈ reports → s ∈ (run_error_reports chat_id [] reports).2) :=
  ⟨run_error_reports_sends_le_one chat_id reports [] s,
   run_error_reports_logs chat_id reports [] s,
   fun ec x h => run_error_reports_cache_mono chat_id reports ec x h,
   fun o h => run_error_reports_cache_mem chat_id reports [] s o h⟩

/-- C1: over a run from process start in which every iteration renders a
message, any message rendered at least once is sent exactly once; the
seen-message cache holds exactly the rendered messages (each appended on
its first occurrence); and an iteration rendering an already-cached
message emits only the GET, the DEBUG "no new status" line and the
sleep, with no send and no state change. -/
theorem C1_status_dedup (chat_id : String) (ts : Int)
    (pairs : List (IterationInput × String)) (m : String)
    (hall : ∀ p ∈ pairs, rendered_message p.1 = .ok p.2)
    (hm : m ∈ pairs.map Prod.snd) :
    countSends m (runIterations chat_id ⟨ts, [], []⟩ (pairs.map Prod.fst)).1 = 1 ∧
    (∀ s, s ∈ (runIterations chat_id ⟨ts, [], []⟩ (pairs.map Prod.fst)).2.cache ↔
      s ∈ pairs.map Prod.snd) ∧
    (∀ st inp, rendered_message inp = .ok m → m ∈ st.cache →
      main_iteration chat_id st inp =
        ([Event.httpGet st.timestamp, Event.logDebug "Новый статус ДЗ отсутсвует.",
          Event.sleep RETRY_PERIOD], st)) := by
  obtain ⟨h1, h2, _⟩ := runIterations_ok_inv chat_id pairs ts [] [] hall
  refine ⟨?_, fun s => by simpa using h1 s,
    fun st inp hr hmc => main_iteration_dup chat_id st inp m hr hmc⟩
  rw [h2 m]
  simp [hm]

/-- A concrete successful fetch for witnesses: HTTP 200 whose body holds
one approved homework named X. -/
def inpX : IterationInput :=
  { fetch := .response 200 (.parsed (.dict [("homeworks",
      .list [.dict [("homework_name", .str "X"), ("status", .str "approved")]])])),
    send := .delivered }

/-- The message `inpX` renders to. -/
def msgX : String :=
  "Изменился статус проверки работы \"X\". Работа проверена: ревьюеру всё понравилось. Ура!"

/-- Witness for C1: the same approved homework fetched in two successive
iterations of a fresh process is sent exactly once. -/
theorem C1_status_dedup_witness :
    countSends msgX (runIterations "7" ⟨0, [], []⟩
      ([(inpX, msgX), (inpX, msgX)].map Prod.fst)).1 = 1 :=
  (C1_status_dedup "7" 0 [(inpX, msgX), (inpX, msgX)] msgX
    (by
      intro p hp
      rcases List.mem_cons.mp hp with h | h
      · subst h; rfl
      · rcases List.mem_cons.mp h with h' | h'
        · subst h'; rfl
        · simp at h')
    (by decide)).1

/-- C7: every iteration of the loop ends in the fixed `RETRY_PERIOD`
sleep; a failing pipeline is caught at the top of the loop body, wrapped
into the descriptive string and routed to the error reporter, after
which the iteration still completes; and a run of any length performs
one sleep per iteration (the loop survives every recoverable error). -/
theorem C7_iteration_always_sleeps (chat_id : String) (st : LoopState)
    (inp : IterationInput) :
    (main_iteration chat_id st inp).1.getLast? = some (.sleep RETRY_PERIOD) ∧
    (∀ e, rendered_message inp = .error e →
      main_iteration chat_id st inp =
        ([Event.httpGet st.timestamp] ++
          (error_log_and_inf_in_telegram chat_id inp.send st.error_cache
            ("Сбой в работе программы: " ++ PyErr.toStr e)).1 ++ [Event.sleep RETRY_PERIOD],
         { st with error_cache :=
            (error_log_and_inf_in_telegram chat_id inp.send st.error_cache
              ("Сбой в работе программы: " ++ PyErr.toStr e)).2 })) ∧
    (∀ inps : List IterationInput,
      countSleeps (runIterations chat_id st inps).1 = inps.length) := by
  refine ⟨?_, fun e he => main_iteration_err chat_id st inp e he,
    fun inps => countSleeps_runIterations chat_id inps st⟩
  have hshape : ∃ l, (main_iteration chat_id st inp).1 = l ++ [Event.sleep RETRY_PERIOD] :=
    ⟨_, rfl⟩
  obtain ⟨l, hl⟩ := hshape
  rw [hl, List.getLast?_concat]

/-- Witness for C7: a transport-failure iteration takes the error path
and the one-iteration run sleeps once. -/
theorem C7_iteration_always_sleeps_witness :
    main_iteration "7" ⟨0, [], []⟩ ⟨.transportFailure "dns", .delivered⟩ =
      ([Event.httpGet 0] ++
        (error_log_and_inf_in_telegram "7" .delivered []
          ("Сбой в работе программы: " ++
            PyErr.toStr (.apiAnswerError "Незапланированная работа API."))).1 ++
        [Event.sleep RETRY_PERIOD],
       { (⟨0, [], []⟩ : LoopState) with error_cache :=
          (error_log_and_inf_in_telegram "7" .delivered []
            ("Сбой в работе программы: " ++
              PyErr.toStr (.apiAnswerError "Незапланированная работа API."))).2 }) ∧
    countSleeps (runIterations "7" ⟨0, [], []⟩ [⟨.transportFailure "dns", .delivered⟩]).1 = 1 :=
  ⟨(C7_iteration_always_sleeps "7" ⟨0, [], []⟩ ⟨.transportFailure "dns", .delivered⟩).2.1
      (.apiAnswerError "Незапланированная работа API.") rfl,
   (C7_iteration_always_sleeps "7" ⟨0, [], []⟩ ⟨.transportFailure "dns", .delivered⟩).2.2
      [⟨.transportFailure "dns", .delivered⟩]⟩

/-- C8: when all three secrets are present and non-empty, startup enters
the polling loop; when any one is missing or empty, startup exits after
the CRITICAL log; and in neither case does startup itself issue a
network call. -/
theorem C8_startup_gate (env : Env) (now : Int) :
    ((truthy env.PRACTICUM_TOKEN = true ∧ truthy env.TELEGRAM_TOKEN = true ∧
        truthy env.TELEGRAM_CHAT_ID = true) →
      main_startup env now = .looping [] ⟨now, [], []⟩) ∧
    ((truthy env.PRACTICUM_TOKEN = false ∨ truthy env.TELEGRAM_TOKEN = false ∨
        truthy env.TELEGRAM_CHAT_ID = false) →
      main_startup env now =
        .exited [Event.logCritical "Отсутствуют обязательные переменные окружения!"]) ∧
    (∀ d, Event.httpGet d ∉ (main_startup env now).events) := by
  refine ⟨?_, ?_, ?_⟩
  · rintro ⟨h1, h2, h3⟩
    simp [main_startup, check_tokens, h1, h2, h3]
  · intro h
    have hct : check_tokens env = false := by
      rcases h with h | h | h <;> simp [check_tokens, h]
    simp [main_startup, hct]
  · intro d
    by_cases hct : check_tokens env = true <;>
      simp [main_startup, hct, MainResult.events]

/-- Witness for C8: a full environment starts polling; one missing
secret exits with the CRITICAL log. -/
theorem C8_startup_gate_witness :
    main_startup ⟨some "a", some "b", some "c"⟩ 0 = .looping [] ⟨0, [], []⟩ ∧
    main_startup ⟨none, some "b", some "c"⟩ 0 =
      .exited [Event.logCritical "Отсутствуют обязательные переменные окружения!"] :=
  ⟨(C8_startup_gate ⟨some "a", some "b", some "c"⟩ 0).1 ⟨rfl, rfl, rfl⟩,
   (C8_startup_gate ⟨none, some "b", some "c"⟩ 0).2.1 (Or.inl rfl)⟩

/-- C9: the poll cursor equals its startup value in every reachable
state of the loop, and every GET ever issued carries exactly that
initial cursor as its `from_date`. -/
theorem C9_cursor_never_advances (chat_id : String) (ts : Int)
    (inps : List IterationInput) :
    (runIterations chat_id ⟨ts, [], []⟩ inps).2.timestamp = ts ∧
    ∀ d, Event.httpGet d ∈ (runIterations chat_id ⟨ts, [], []⟩ inps).1 → d = ts :=
  runIterations_cursor chat_id inps ⟨ts, [], []⟩

/-- Witness for C9: after one failing iteration the cursor still equals
its initial value 5, and the GET that was issued carried 5. -/
theorem C9_cursor_never_advances_witness :
    (runIterations "7" ⟨5, [], []⟩ [⟨.transportFailure "dns", .delivered⟩]).2.timestamp = 5 ∧
    (5 : Int) = 5 :=
  ⟨(C9_cursor_never_advances "7" 5 [⟨.transportFailure "dns", .delivered⟩]).1,
   (C9_cursor_never_advances "7" 5 [⟨.transportFailure "dns", .delivered⟩]).2 5 (by decide)⟩

/-- Witness for C5: the same error string reported in three consecutive
iterations with a working Telegram channel — at most one send attempt,
at least three ERROR log lines, and the string ends in the cache. -/
theorem C5_error_dedup_witness :
    countSends "e1" (run_error_reports "7" []
      [("e1", .delivered), ("e1", .delivered), ("e1", .delivered)]).1 ≤ 1 ∧
    ([("e1", SendResult.delivered), ("e1", .delivered), ("e1", .delivered)].filter
        (fun p => p.1 == "e1")).length ≤
      countErrorLogs "e1" (run_error_reports "7" []
        [("e1", .delivered), ("e1", .delivered), ("e1", .delivered)]).1 ∧
    "e1" ∈ (run_error_reports "7" []
      [("e1", .delivered), ("e1", .delivered), ("e1", .delivered)]).2 :=
  ⟨(C5_error_dedup "7" [("e1", .delivered), ("e1", .delivered), ("e1", .delivered)] "e1").1,
   (C5_error_dedup "7" [("e1", .delivered), ("e1", .delivered), ("e1", .delivered)] "e1").2.1,
   (C5_error_dedup "7" [("e1", .delivered), ("e1", .delivered), ("e1", .delivered)] "e1").2.2.2
     .delivered (by simp)⟩

end HomeworkBot
